import Mathlib

/-!
Shallow embedding of the `chaos-rs` fault-injection crate.

The crate has three parts:
* `src/__failpoint_internal.rs`: a process-wide set of active failpoint tags
  (`FAILPOINTS : DashSet<&str>`) with `is_failpoint_enabled`, `enable_failpoint`
  and `disable_failpoint`.
* `src/macros.rs`, injection primitives: `maybe_fail!`, `maybe_panic!`,
  `maybe_sleep!`, `maybe_sleep_async!`, each a single membership check followed
  by an effect, and each wrapped in `#[cfg(feature = "chaos")]`.
* `src/macros.rs`, assertion harnesses: `with_failpoint!` (panic / error /
  delay arms) and `with_failpoint_async!`.

Modelling choices:
* The registry is a duplicate-free list of strings; `DashSet::insert` is an
  insert-if-absent, `DashSet::remove` removes the element.
* Rust panics are modelled by the `Outcome` type: a computation either returns
  a value or ends in a panic carrying its message string.
* The `#[cfg(feature = "chaos")]` gate is an explicit `chaos : Bool` argument;
  `chaos = false` is the build without the feature.
* Durations are natural numbers of nanoseconds; `Duration::from_millis`
  multiplies by 1000000.  `u64` arithmetic on millisecond bounds uses the
  checked (debug-build) semantics: overflow is an arithmetic panic.
* Caller-supplied code blocks are functions from the registry they observe to
  an `Outcome`; for the delay arms the returned value is the elapsed time in
  nanoseconds.
-/

namespace ChaosRs

abbrev Tag := String

abbrev Registry := List Tag

/-- `FAILPOINTS` starts out as an empty set (`LazyLock::new(DashSet::new)`). -/
def initialRegistry : Registry := []

/-- `is_failpoint_enabled(tag) = FAILPOINTS.contains(tag)`. -/
def is_failpoint_enabled (r : Registry) (tag : Tag) : Bool :=
  r.contains tag

/-- `enable_failpoint(tag) = FAILPOINTS.insert(tag)`: a set insert, which adds
the tag only when it is absent. -/
def enable_failpoint (r : Registry) (tag : Tag) : Registry :=
  if r.contains tag then r else tag :: r

/-- `disable_failpoint(tag) = FAILPOINTS.remove(tag)`: a set remove. -/
def disable_failpoint (r : Registry) (tag : Tag) : Registry :=
  r.filter (fun x => x != tag)

/-- Result of running a Rust computation: either a normal value or a panic
carrying its message. -/
inductive Outcome (α : Type) where
  | ok (val : α)
  | panicked (msg : String)
  deriving DecidableEq, Repr

/-- `Duration::from_millis`, with durations measured in nanoseconds. -/
def durationFromMillis (ms : Nat) : Nat :=
  ms * 1000000

def U64_MOD : Nat := 2 ^ 64

/-- `u64` addition under debug-build semantics: overflow is a panic. -/
def u64_add (a b : Nat) : Outcome Nat :=
  if a + b < U64_MOD then .ok (a + b) else .panicked "attempt to add with overflow"

/-- `u64` subtraction under debug-build semantics: underflow is a panic. -/
def u64_sub (a b : Nat) : Outcome Nat :=
  if b ≤ a then .ok (a - b) else .panicked "attempt to subtract with overflow"

/-- `maybe_fail!(tag)`: `some e` means the enclosing function returns `Err(e)`
(the default error is `tag.into()`, modelled as the tag itself); `none` means
control falls through.  The whole check is inside `#[cfg(feature = "chaos")]`. -/
def maybe_fail (chaos : Bool) (r : Registry) (tag : Tag) : Option Tag :=
  if chaos && is_failpoint_enabled r tag then some tag else none

/-- `maybe_fail!(tag, err)`: the two-argument arm returning the supplied
custom error value. -/
def maybe_fail_custom {ε : Type} (chaos : Bool) (r : Registry) (tag : Tag)
    (err : ε) : Option ε :=
  if chaos && is_failpoint_enabled r tag then some err else none

/-- An enclosing function that invokes `maybe_fail!(tag)` and otherwise
returns `Ok normal`: the early `return Err($tag.into())` short-circuits it. -/
def run_maybe_fail {α : Type} (chaos : Bool) (r : Registry) (tag : Tag)
    (normal : α) : Except Tag α :=
  match maybe_fail chaos r tag with
  | some e => .error e
  | none => .ok normal

/-- An enclosing function that invokes `maybe_fail!(tag, err)` and otherwise
returns `Ok normal`. -/
def run_maybe_fail_custom {ε α : Type} (chaos : Bool) (r : Registry) (tag : Tag)
    (err : ε) (normal : α) : Except ε α :=
  match maybe_fail_custom chaos r tag err with
  | some e => .error e
  | none => .ok normal

/-- `maybe_panic!(tag)`: when the tag is enabled the macro panics with the tag
literal as the message; otherwise it is a no-op. -/
def maybe_panic (chaos : Bool) (r : Registry) (tag : Tag) : Outcome Unit :=
  if chaos && is_failpoint_enabled r tag then .panicked tag else .ok ()

/-- `maybe_sleep!(tag, millis)`: returns the time slept, in nanoseconds
(`thread::sleep(Duration::from_millis(millis))` when enabled, nothing
otherwise). -/
def maybe_sleep (chaos : Bool) (r : Registry) (tag : Tag) (millis : Nat) : Nat :=
  if chaos && is_failpoint_enabled r tag then durationFromMillis millis else 0

/-- `maybe_sleep_async!(tag, millis)`: same shape as `maybe_sleep!` but the
delay suspends via `sleep_async_internal` instead of blocking. -/
def maybe_sleep_async (chaos : Bool) (r : Registry) (tag : Tag) (millis : Nat) : Nat :=
  if chaos && is_failpoint_enabled r tag then durationFromMillis millis else 0

/-- `with_failpoint!(tag, panic, code)`: enable, run `code` under
`catch_unwind`, disable, then require that a panic was caught; a normal
completion makes the harness itself panic. -/
def with_failpoint_panic {α : Type} (chaos : Bool) (r : Registry) (tag : Tag)
    (code : Registry → Outcome α) : Registry × Outcome Unit :=
  if chaos then
    let r1 := enable_failpoint r tag
    let result := code r1
    let r2 := disable_failpoint r1 tag
    match result with
    | .ok _ =>
        (r2, .panicked
          ("Expected panic from failpoint '" ++ tag ++ "', but none occurred"))
    | .panicked _ => (r2, .ok ())
  else (r, .ok ())

/-- `with_failpoint!(tag, error, code)`: enable, run `code` (no unwind
boundary: a panic in `code` propagates and skips the disable), disable,
then require that the result was `Err`. -/
def with_failpoint_error {ε α : Type} (chaos : Bool) (r : Registry) (tag : Tag)
    (code : Registry → Outcome (Except ε α)) : Registry × Outcome Unit :=
  if chaos then
    let r1 := enable_failpoint r tag
    match code r1 with
    | .panicked msg => (r1, .panicked msg)
    | .ok result =>
        let r2 := disable_failpoint r1 tag
        match result with
        | .error _ => (r2, .ok ())
        | .ok _ =>
            (r2, .panicked
              ("Expected error from failpoint '" ++ tag ++ "', but function returned Ok"))
  else (r, .ok ())

/-- The delay-arm assertion message, built from the computed bounds, the tag
and the measured elapsed time (all durations in nanoseconds; the model keeps
the values rather than Rust's `Duration` Debug rendering). -/
def delayAssertMsg (minNs maxNs : Nat) (tag : Tag) (elapsedNs : Nat) : String :=
  "Expected sleep between " ++ toString minNs ++ "ns and " ++ toString maxNs ++
    "ns from failpoint '" ++ tag ++ "', got " ++ toString elapsedNs ++ "ns"

/-- `with_failpoint!(tag, min_ms, tolerance_ms, code)`: enable, run `code`
measuring its elapsed time (a panic in `code` propagates and skips the
disable), disable, compute `max = from_millis(min_ms + tolerance_ms)` and
`min = from_millis(min_ms - tolerance_ms)` in that order with `u64`
arithmetic, then `assert!(elapsed <= max && elapsed >= min)`. -/
def with_failpoint_delay (chaos : Bool) (r : Registry) (tag : Tag)
    (min_ms tolerance_ms : Nat) (code : Registry → Outcome Nat) :
    Registry × Outcome Unit :=
  if chaos then
    let r1 := enable_failpoint r tag
    match code r1 with
    | .panicked msg => (r1, .panicked msg)
    | .ok elapsed =>
        let r2 := disable_failpoint r1 tag
        match u64_add min_ms tolerance_ms with
        | .panicked msg => (r2, .panicked msg)
        | .ok maxMs =>
            match u64_sub min_ms tolerance_ms with
            | .panicked msg => (r2, .panicked msg)
            | .ok minMs =>
                let maxNs := durationFromMillis maxMs
                let minNs := durationFromMillis minMs
                if elapsed ≤ maxNs && minNs ≤ elapsed then (r2, .ok ())
                else (r2, .panicked (delayAssertMsg minNs maxNs tag elapsed))
  else (r, .ok ())

/-- `with_failpoint_async!(tag, min_ms, tolerance_ms, code)`: identical
protocol to the sync delay arm, with `$code.await` in place of `$code`. -/
def with_failpoint_async (chaos : Bool) (r : Registry) (tag : Tag)
    (min_ms tolerance_ms : Nat) (code : Registry → Outcome Nat) :
    Registry × Outcome Unit :=
  if chaos then
    let r1 := enable_failpoint r tag
    match code r1 with
    | .panicked msg => (r1, .panicked msg)
    | .ok elapsed =>
        let r2 := disable_failpoint r1 tag
        match u64_add min_ms tolerance_ms with
        | .panicked msg => (r2, .panicked msg)
        | .ok maxMs =>
            match u64_sub min_ms tolerance_ms with
            | .panicked msg => (r2, .panicked msg)
            | .ok minMs =>
                let maxNs := durationFromMillis maxMs
                let minNs := durationFromMillis minMs
                if elapsed ≤ maxNs && minNs ≤ elapsed then (r2, .ok ())
                else (r2, .panicked (delayAssertMsg minNs maxNs tag elapsed))
  else (r, .ok ())

/-! ### Registry helper lemmas -/

lemma contains_enable_self (r : Registry) (t : Tag) :
    (enable_failpoint r t).contains t = true := by
  unfold enable_failpoint
  split
  · assumption
  · simp

lemma contains_disable_self (r : Registry) (t : Tag) :
    (disable_failpoint r t).contains t = false := by
  simp [disable_failpoint, List.mem_filter]

lemma enable_idem (r : Registry) (t : Tag) :
    enable_failpoint (enable_failpoint r t) t = enable_failpoint r t := by
  have h := contains_enable_self r t
  conv_lhs => rw [enable_failpoint]
  rw [h]
  simp

lemma disable_idem (r : Registry) (t : Tag) :
    disable_failpoint (disable_failpoint r t) t = disable_failpoint r t := by
  unfold disable_failpoint
  rw [List.filter_filter]
  simp

lemma delay_fst_of_ok (r : Registry) (t : Tag) (min_ms tolerance_ms : Nat)
    (code : Registry → Outcome Nat) (elapsed : Nat)
    (h : code (enable_failpoint r t) = Outcome.ok elapsed) :
    (with_failpoint_delay true r t min_ms tolerance_ms code).1 =
      disable_failpoint (enable_failpoint r t) t := by
  cases hu : u64_add min_ms tolerance_ms with
  | panicked m => simp [with_failpoint_delay, h, hu]
  | ok mx =>
    cases hs : u64_sub min_ms tolerance_ms with
    | panicked m => simp [with_failpoint_delay, h, hu, hs]
    | ok mn =>
      simp only [with_failpoint_delay, h, hu, hs, if_true]
      split <;> rfl

lemma async_fst_of_ok (r : Registry) (t : Tag) (min_ms tolerance_ms : Nat)
    (code : Registry → Outcome Nat) (elapsed : Nat)
    (h : code (enable_failpoint r t) = Outcome.ok elapsed) :
    (with_failpoint_async true r t min_ms tolerance_ms code).1 =
      disable_failpoint (enable_failpoint r t) t := by
  cases hu : u64_add min_ms tolerance_ms with
  | panicked m => simp [with_failpoint_async, h, hu]
  | ok mx =>
    cases hs : u64_sub min_ms tolerance_ms with
    | panicked m => simp [with_failpoint_async, h, hu, hs]
    | ok mn =>
      simp only [with_failpoint_async, h, hu, hs, if_true]
      split <;> rfl

/-! ### Claims -/

/-- C1: with the tag enabled in the registry, `maybe_fail!(tag)` makes the
enclosing function return an error derived from the tag (`tag.into()`), and
`maybe_fail!(tag, err)` makes it return the supplied custom error; with the
tag disabled, neither short-circuits and the enclosing function reaches its
normal return. -/
theorem maybe_fail_enabled_disabled {ε α : Type} (r : Registry) (t : Tag)
    (err : ε) (normal : α) :
    run_maybe_fail true r t normal =
      (if is_failpoint_enabled r t then Except.error t else Except.ok normal) ∧
    run_maybe_fail_custom true r t err normal =
      (if is_failpoint_enabled r t then Except.error err else Except.ok normal) := by
  refine ⟨?_, ?_⟩
  · unfold run_maybe_fail maybe_fail
    by_cases h : is_failpoint_enabled r t <;> simp [h]
  · unfold run_maybe_fail_custom maybe_fail_custom
    by_cases h : is_failpoint_enabled r t <;> simp [h]

/-- C2: after `enable(T)` the tag is enabled, after `disable(T)` it is
disabled; enabling an already-enabled tag and disabling an absent tag leave
the registry unchanged (repeated enable and repeated disable are idempotent,
with no error). -/
theorem registry_enable_disable_idempotent (r : Registry) (t : Tag) :
    is_failpoint_enabled (enable_failpoint r t) t = true ∧
    is_failpoint_enabled (disable_failpoint r t) t = false ∧
    enable_failpoint (enable_failpoint r t) t = enable_failpoint r t ∧
    disable_failpoint (disable_failpoint r t) t = disable_failpoint r t :=
  ⟨contains_enable_self r t, contains_disable_self r t,
   enable_idem r t, disable_idem r t⟩

/-- C6: `maybe_panic!(tag)` with the tag active panics carrying the tag name
as its message (so it does not return a value); with the tag inactive it is a
no-op returning unit. -/
theorem maybe_panic_enabled_disabled (r : Registry) (t : Tag) :
    maybe_panic true r t =
      (if is_failpoint_enabled r t then Outcome.panicked t else Outcome.ok ()) := by
  unfold maybe_panic
  by_cases h : is_failpoint_enabled r t <;> simp [h]

/-- C8: in the initial registry state (the empty set, before any enable
call), every tag reads as disabled. -/
theorem initial_registry_all_disabled (t : Tag) :
    is_failpoint_enabled initialRegistry t = false :=
  rfl

/-- C7: with the `chaos` feature flag unset, every injection primitive and
every harness operation is equivalent to the empty operation: no error, no
panic, no sleep, no registry change, and the caller-supplied code is never
run. -/
theorem chaos_feature_off_noop {ε α : Type} (r : Registry) (t : Tag) (err : ε)
    (normal : α) (m min_ms tolerance_ms : Nat) (codeP : Registry → Outcome α)
    (codeE : Registry → Outcome (Except ε α)) (codeD codeA : Registry → Outcome Nat) :
    maybe_fail false r t = none ∧
    maybe_fail_custom false r t err = none ∧
    run_maybe_fail false r t normal = Except.ok normal ∧
    run_maybe_fail_custom false r t err normal = Except.ok normal ∧
    maybe_panic false r t = Outcome.ok () ∧
    maybe_sleep false r t m = 0 ∧
    maybe_sleep_async false r t m = 0 ∧
    with_failpoint_panic false r t codeP = (r, Outcome.ok ()) ∧
    with_failpoint_error false r t codeE = (r, Outcome.ok ()) ∧
    with_failpoint_delay false r t min_ms tolerance_ms codeD = (r, Outcome.ok ()) ∧
    with_failpoint_async false r t min_ms tolerance_ms codeA = (r, Outcome.ok ()) :=
  ⟨rfl, rfl, rfl, rfl, rfl, rfl, rfl, rfl, rfl, rfl, rfl⟩

/-- C3 counterexample: when the code completes normally, the panic-mode
harness's assertion-failure message is not the claimed
"expected panic from failpoint '<tag>', none occurred" (the code panics with
"Expected panic from failpoint '<tag>', but none occurred"). -/
theorem with_failpoint_panic_message_counterexample :
    (with_failpoint_panic true initialRegistry "t" (fun _ => Outcome.ok 0)).2 ≠
      Outcome.panicked "expected panic from failpoint 't', none occurred" := by
  decide

/-- C3 (amended): `with_failpoint!(tag, panic, code)` enables the tag, runs
the code under a `catch_unwind` boundary so a panic is captured and not
propagated, disables the tag, and asserts a panic was captured; when the code
completed normally, the harness itself panics with the message
"Expected panic from failpoint '<tag>', but none occurred". -/
theorem with_failpoint_panic_harness {α : Type} (r : Registry) (t : Tag)
    (code : Registry → Outcome α) :
    with_failpoint_panic true r t code =
      (disable_failpoint (enable_failpoint r t) t,
       match code (enable_failpoint r t) with
       | .panicked _ => Outcome.ok ()
       | .ok _ => Outcome.panicked
           ("Expected panic from failpoint '" ++ t ++ "', but none occurred")) := by
  cases hc : code (enable_failpoint r t) <;> simp [with_failpoint_panic, hc]

/-- C4: in the error-mode and delay-mode harnesses there is no unwind
boundary: when the caller-supplied code panics, the panic propagates out of
the harness, the disable step is skipped, and the tag is left enabled in the
registry. -/
theorem error_delay_harness_leak_on_panic {ε α : Type} (r : Registry) (t : Tag)
    (min_ms tolerance_ms : Nat) (msg : String)
    (codeE : Registry → Outcome (Except ε α)) (codeD codeA : Registry → Outcome Nat)
    (hE : codeE (enable_failpoint r t) = Outcome.panicked msg)
    (hD : codeD (enable_failpoint r t) = Outcome.panicked msg)
    (hA : codeA (enable_failpoint r t) = Outcome.panicked msg) :
    with_failpoint_error true r t codeE = (enable_failpoint r t, Outcome.panicked msg) ∧
    with_failpoint_delay true r t min_ms tolerance_ms codeD =
      (enable_failpoint r t, Outcome.panicked msg) ∧
    with_failpoint_async true r t min_ms tolerance_ms codeA =
      (enable_failpoint r t, Outcome.panicked msg) ∧
    is_failpoint_enabled (with_failpoint_error true r t codeE).1 t = true ∧
    is_failpoint_enabled (with_failpoint_delay true r t min_ms tolerance_ms codeD).1 t = true ∧
    is_failpoint_enabled (with_failpoint_async true r t min_ms tolerance_ms codeA).1 t = true := by
  have e1 : with_failpoint_error true r t codeE =
      (enable_failpoint r t, Outcome.panicked msg) := by
    simp [with_failpoint_error, hE]
  have e2 : with_failpoint_delay true r t min_ms tolerance_ms codeD =
      (enable_failpoint r t, Outcome.panicked msg) := by
    simp [with_failpoint_delay, hD]
  have e3 : with_failpoint_async true r t min_ms tolerance_ms codeA =
      (enable_failpoint r t, Outcome.panicked msg) := by
    simp [with_failpoint_async, hA]
  refine ⟨e1, e2, e3, ?_, ?_, ?_⟩
  · rw [e1]; exact contains_enable_self r t
  · rw [e2]; exact contains_enable_self r t
  · rw [e3]; exact contains_enable_self r t

/-- C4 witness: concrete instance with an empty initial registry, tag "t" and
a code block that panics with "boom". -/
theorem error_delay_harness_leak_on_panic_witness :
    with_failpoint_error true initialRegistry "t"
        (fun _ => (Outcome.panicked "boom" : Outcome (Except Unit Unit))) =
      (enable_failpoint initialRegistry "t", Outcome.panicked "boom") ∧
    with_failpoint_delay true initialRegistry "t" 50 10
        (fun _ => Outcome.panicked "boom") =
      (enable_failpoint initialRegistry "t", Outcome.panicked "boom") ∧
    with_failpoint_async true initialRegistry "t" 50 10
        (fun _ => Outcome.panicked "boom") =
      (enable_failpoint initialRegistry "t", Outcome.panicked "boom") ∧
    is_failpoint_enabled (with_failpoint_error true initialRegistry "t"
        (fun _ => (Outcome.panicked "boom" : Outcome (Except Unit Unit)))).1 "t" = true ∧
    is_failpoint_enabled (with_failpoint_delay true initialRegistry "t" 50 10
        (fun _ => Outcome.panicked "boom")).1 "t" = true ∧
    is_failpoint_enabled (with_failpoint_async true initialRegistry "t" 50 10
        (fun _ => Outcome.panicked "boom")).1 "t" = true :=
  error_delay_harness_leak_on_panic initialRegistry "t" 50 10 "boom"
    (fun _ => Outcome.panicked "boom") (fun _ => Outcome.panicked "boom")
    (fun _ => Outcome.panicked "boom") rfl rfl rfl

/-- C5: the delay-mode harness (sync and async) enables the tag, measures the
elapsed time of the code, disables the tag, and accepts exactly the elapsed
times within `[min_ms - tolerance_ms, min_ms + tolerance_ms]`; outside that
window it panics with a message reporting the bounds, the tag and the actual
elapsed time (stated for bounds where the `u64` arithmetic is in range). -/
theorem delay_harness_window (r : Registry) (t : Tag)
    (min_ms tolerance_ms elapsed : Nat) (codeD codeA : Registry → Outcome Nat)
    (hD : codeD (enable_failpoint r t) = Outcome.ok elapsed)
    (hA : codeA (enable_failpoint r t) = Outcome.ok elapsed)
    (htol : tolerance_ms ≤ min_ms) (hmax : min_ms + tolerance_ms < U64_MOD) :
    with_failpoint_delay true r t min_ms tolerance_ms codeD =
      (disable_failpoint (enable_failpoint r t) t,
       if elapsed ≤ durationFromMillis (min_ms + tolerance_ms) &&
          durationFromMillis (min_ms - tolerance_ms) ≤ elapsed
       then Outcome.ok ()
       else Outcome.panicked
         (delayAssertMsg (durationFromMillis (min_ms - tolerance_ms))
           (durationFromMillis (min_ms + tolerance_ms)) t elapsed)) ∧
    with_failpoint_async true r t min_ms tolerance_ms codeA =
      (disable_failpoint (enable_failpoint r t) t,
       if elapsed ≤ durationFromMillis (min_ms + tolerance_ms) &&
          durationFromMillis (min_ms - tolerance_ms) ≤ elapsed
       then Outcome.ok ()
       else Outcome.panicked
         (delayAssertMsg (durationFromMillis (min_ms - tolerance_ms))
           (durationFromMillis (min_ms + tolerance_ms)) t elapsed)) := by
  have hadd : u64_add min_ms tolerance_ms = Outcome.ok (min_ms + tolerance_ms) := by
    simp [u64_add, hmax]
  have hsub : u64_sub min_ms tolerance_ms = Outcome.ok (min_ms - tolerance_ms) := by
    simp [u64_sub, htol]
  refine ⟨?_, ?_⟩
  · simp only [with_failpoint_delay, hD, hadd, hsub]
    rw [apply_ite (Prod.mk (disable_failpoint (enable_failpoint r t) t))]
    simp
  · simp only [with_failpoint_async, hA, hadd, hsub]
    rw [apply_ite (Prod.mk (disable_failpoint (enable_failpoint r t) t))]
    simp

/-- C5 witness: tag "sleep_test", `min_ms = 50`, `tolerance_ms = 10`, with the
code taking exactly 50ms: both harness variants accept and leave the tag
disabled. -/
theorem delay_harness_window_witness :
    with_failpoint_delay true initialRegistry "sleep_test" 50 10
        (fun _ => Outcome.ok 50000000) =
      (disable_failpoint (enable_failpoint initialRegistry "sleep_test") "sleep_test",
       if (50000000 : Nat) ≤ durationFromMillis (50 + 10) &&
          durationFromMillis (50 - 10) ≤ (50000000 : Nat)
       then Outcome.ok ()
       else Outcome.panicked
         (delayAssertMsg (durationFromMillis (50 - 10)) (durationFromMillis (50 + 10))
           "sleep_test" 50000000)) ∧
    with_failpoint_async true initialRegistry "sleep_test" 50 10
        (fun _ => Outcome.ok 50000000) =
      (disable_failpoint (enable_failpoint initialRegistry "sleep_test") "sleep_test",
       if (50000000 : Nat) ≤ durationFromMillis (50 + 10) &&
          durationFromMillis (50 - 10) ≤ (50000000 : Nat)
       then Outcome.ok ()
       else Outcome.panicked
         (delayAssertMsg (durationFromMillis (50 - 10)) (durationFromMillis (50 + 10))
           "sleep_test" 50000000)) :=
  delay_harness_window initialRegistry "sleep_test" 50 10 50000000
    (fun _ => Outcome.ok 50000000) (fun _ => Outcome.ok 50000000) rfl rfl
    (by decide) (by decide)

/-- C9: the delay-mode harnesses compute the lower bound as the `u64`
subtraction `min_ms - tolerance_ms`; whenever `tolerance_ms > min_ms` this
underflows, so (under the checked, debug-build semantics) the harness panics
with an arithmetic-overflow message instead of performing the range check. -/
theorem delay_harness_underflow_panics (r : Registry) (t : Tag)
    (min_ms tolerance_ms elapsedD elapsedA : Nat)
    (codeD codeA : Registry → Outcome Nat)
    (hD : codeD (enable_failpoint r t) = Outcome.ok elapsedD)
    (hA : codeA (enable_failpoint r t) = Outcome.ok elapsedA)
    (htol : min_ms < tolerance_ms) (hmax : min_ms + tolerance_ms < U64_MOD) :
    (with_failpoint_delay true r t min_ms tolerance_ms codeD).2 =
      Outcome.panicked "attempt to subtract with overflow" ∧
    (with_failpoint_async true r t min_ms tolerance_ms codeA).2 =
      Outcome.panicked "attempt to subtract with overflow" := by
  have hadd : u64_add min_ms tolerance_ms = Outcome.ok (min_ms + tolerance_ms) := by
    simp [u64_add, hmax]
  have hsub : u64_sub min_ms tolerance_ms =
      Outcome.panicked "attempt to subtract with overflow" := by
    simp [u64_sub, Nat.not_le.mpr htol]
  refine ⟨?_, ?_⟩
  · simp [with_failpoint_delay, hD, hadd, hsub]
  · simp [with_failpoint_async, hA, hadd, hsub]

/-- C9 witness: `min_ms = 5`, `tolerance_ms = 10`: both delay harnesses end
in the arithmetic-underflow panic. -/
theorem delay_harness_underflow_panics_witness :
    (5 : Nat) < 10 ∧
    (with_failpoint_delay true initialRegistry "t" 5 10 (fun _ => Outcome.ok 0)).2 =
      Outcome.panicked "attempt to subtract with overflow" ∧
    (with_failpoint_async true initialRegistry "t" 5 10 (fun _ => Outcome.ok 0)).2 =
      Outcome.panicked "attempt to subtract with overflow" :=
  ⟨by decide,
   delay_harness_underflow_panics initialRegistry "t" 5 10 0 0
     (fun _ => Outcome.ok 0) (fun _ => Outcome.ok 0) rfl rfl
     (by decide) (by decide)⟩

/-- C10: in all four harness modes, when the caller-supplied code completes
without panicking the tag is disabled before the assertion is evaluated, so
whatever the assertion outcome, the final registry does not have the tag
enabled. -/
theorem harness_disables_before_assert {ε α β : Type} (r : Registry) (t : Tag)
    (min_ms tolerance_ms : Nat)
    (codeP : Registry → Outcome β) (vP : β)
    (codeE : Registry → Outcome (Except ε α)) (vE : Except ε α)
    (codeD codeA : Registry → Outcome Nat) (vD vA : Nat)
    (hP : codeP (enable_failpoint r t) = Outcome.ok vP)
    (hE : codeE (enable_failpoint r t) = Outcome.ok vE)
    (hD : codeD (enable_failpoint r t) = Outcome.ok vD)
    (hA : codeA (enable_failpoint r t) = Outcome.ok vA) :
    is_failpoint_enabled (with_failpoint_panic true r t codeP).1 t = false ∧
    is_failpoint_enabled (with_failpoint_error true r t codeE).1 t = false ∧
    is_failpoint_enabled (with_failpoint_delay true r t min_ms tolerance_ms codeD).1 t = false ∧
    is_failpoint_enabled (with_failpoint_async true r t min_ms tolerance_ms codeA).1 t = false := by
  refine ⟨?_, ?_, ?_, ?_⟩
  · have h1 : (with_failpoint_panic true r t codeP).1 =
        disable_failpoint (enable_failpoint r t) t := by
      simp [with_failpoint_panic, hP]
    rw [h1]; exact contains_disable_self _ _
  · have h1 : (with_failpoint_error true r t codeE).1 =
        disable_failpoint (enable_failpoint r t) t := by
      cases vE <;> simp [with_failpoint_error, hE]
    rw [h1]; exact contains_disable_self _ _
  · rw [delay_fst_of_ok r t min_ms tolerance_ms codeD vD hD]
    exact contains_disable_self _ _
  · rw [async_fst_of_ok r t min_ms tolerance_ms codeA vA hA]
    exact contains_disable_self _ _

/-- C10 witness: concrete runs in which every assertion fails (no panic
occurred, the result was `Ok`, and the elapsed time was out of bounds), yet
the tag ends up disabled in all four modes. -/
theorem harness_disables_before_assert_witness :
    is_failpoint_enabled (with_failpoint_panic true initialRegistry "t"
        (fun _ => Outcome.ok 0)).1 "t" = false ∧
    is_failpoint_enabled (with_failpoint_error true initialRegistry "t"
        (fun _ => Outcome.ok (Except.ok (0 : Nat) : Except Unit Nat))).1 "t" = false ∧
    is_failpoint_enabled (with_failpoint_delay true initialRegistry "t" 50 10
        (fun _ => Outcome.ok 0)).1 "t" = false ∧
    is_failpoint_enabled (with_failpoint_async true initialRegistry "t" 50 10
        (fun _ => Outcome.ok 0)).1 "t" = false :=
  harness_disables_before_assert initialRegistry "t" 50 10
    (fun _ => Outcome.ok 0) 0
    (fun _ => Outcome.ok (Except.ok (0 : Nat) : Except Unit Nat)) (Except.ok 0)
    (fun _ => Outcome.ok 0) (fun _ => Outcome.ok 0) 0 0 rfl rfl rfl rfl

end ChaosRs
